import Mathlib

/-!
Verification of the predictive-analysis core of an IoT equipment-monitoring
backend.  The definitions below are a shallow embedding of the Python
sources: `services/data_collection.py`, `services/analysis.py`,
`models/equipment.py`, `routers/predictions.py` and `config.py`.
Machine floats are idealised as exact rationals (`ℚ`) where the code is
pure arithmetic, and as reals (`ℝ`) where a square root occurs
(the anomaly detector's standard deviation).  Python's `round(x, 2)`
(round-half-to-even at two decimals) is modelled by `round2`.
-/

/-- `SensorType` enum from `models/equipment.py`. -/
inductive SensorType
  | temperature
  | vibration
  | pressure
  | current
  deriving DecidableEq, Repr

/-- `EquipmentStatus` enum from `models/equipment.py`. -/
inductive EquipmentStatus
  | online
  | offline
  | error
  | maintenance
  deriving DecidableEq, Repr

/-- `AlertSeverity` enum from `models/equipment.py`. -/
inductive AlertSeverity
  | warning
  | critical
  deriving DecidableEq, Repr

/-- Trend labels produced by `AnalysisSubsystem._calculate_trend`. -/
inductive Trend
  | increasing
  | decreasing
  | stable
  deriving DecidableEq, Repr

/-- Risk tiers returned by `AnalysisSubsystem._get_risk_level`. -/
inductive RiskLevel
  | low
  | medium
  | high
  | critical
  deriving DecidableEq, Repr

/-- One entry of the `SENSOR_THRESHOLDS` dict in `config.py`
(the `unit` string is irrelevant to the claims and omitted). -/
structure ThresholdBand where
  warning : ℚ
  critical : ℚ
  deriving DecidableEq, Repr

/-- The `SENSOR_THRESHOLDS` dict from `config.py`, modelled as the map
that `dict.get` induces: every one of the four sensor types has a band. -/
def SENSOR_THRESHOLDS : SensorType → Option ThresholdBand
  | .temperature => some ⟨70, 85⟩
  | .vibration => some ⟨5, 15/2⟩
  | .pressure => some ⟨350, 450⟩
  | .current => some ⟨35, 45⟩

/-- Round-half-to-even to an integer, the tie-breaking rule of Python's
builtin `round`.  Generic over `ℚ` and `ℝ`. -/
def roundHalfEven {α : Type} [LinearOrderedField α] [FloorRing α] (x : α) : ℤ :=
  let n := ⌊x⌋
  if x - n < 1/2 then n
  else if 1/2 < x - n then n + 1
  else if Even n then n else n + 1

/-- Python's `round(x, 2)`: round to two decimal places, ties to even. -/
def round2 {α : Type} [LinearOrderedField α] [FloorRing α] (x : α) : α :=
  (roundHalfEven (100 * x) : α) / 100

/-! ## Noise filter (`DataCollectionSubsystem.filter_data`) -/

/-- The `_noise_filter_window` attribute (5). -/
def noiseFilterWindow : ℕ := 5

/-- The history update performed by `filter_data`: append the raw value,
then `pop(0)` once if the window size is exceeded. -/
def pushValue (s : List ℚ) (v : ℚ) : List ℚ :=
  let s' := s ++ [v]
  if noiseFilterWindow < s'.length then s'.drop 1 else s'

/-- `DataCollectionSubsystem.filter_data` for one stream key:
given the per-key history and a raw value, return the smoothed value
(mean of the held values, rounded to 2 decimals) and the new history. -/
def filter_data (s : List ℚ) (v : ℚ) : ℚ × List ℚ :=
  let s' := pushValue s v
  (round2 (s'.sum / (s'.length : ℚ)), s')

/-- The trailing `n` elements of a list. -/
def lastN (n : ℕ) (l : List ℚ) : List ℚ := l.drop (l.length - n)

/-- The per-key history obtained by feeding a whole sequence of raw
values through `filter_data`, starting from the empty history. -/
def histAfter (l : List ℚ) : List ℚ := l.foldl pushValue []

/-! ## Physical-range validation (`Sensor.validate_data`) and one
per-sensor step of `DataCollectionSubsystem._collection_cycle` -/

/-- The `ranges` dict in `Sensor.validate_data`. -/
def sensorRanges : SensorType → ℚ × ℚ
  | .temperature => (-50, 200)
  | .vibration => (0, 50)
  | .pressure => (0, 1000)
  | .current => (0, 100)

/-- `Sensor.validate_data`: the value is within the type-specific
physical range (inclusive on both ends). -/
def validate_data (t : SensorType) (v : ℚ) : Bool :=
  decide ((sensorRanges t).1 ≤ v ∧ v ≤ (sensorRanges t).2)

/-- The per-sensor body of `DataCollectionSubsystem._collection_cycle`:
the raw value is smoothed by `filter_data` first, and only then the
*filtered* value is validated; on success it is stored and
threshold-checked.  Returns (new per-key history, stored value if any,
whether the threshold check ran). -/
def processSensorReading (hist : List ℚ) (t : SensorType) (raw : ℚ) :
    List ℚ × Option ℚ × Bool :=
  let fr := filter_data hist raw
  if validate_data t fr.1 then (fr.2, some fr.1, true) else (fr.2, none, false)

/-! ## Threshold evaluation (`DataCollectionSubsystem._check_thresholds`) -/

/-- A row of the `alerts` table as far as the suppression query is
concerned: sensor id, severity and timestamp (seconds). -/
structure AlertRec where
  sensor_id : ℕ
  severity : AlertSeverity
  timestamp : ℚ
  deriving DecidableEq, Repr

/-- `DataCollectionSubsystem._check_thresholds` for a sensor attached to
an equipment unit (the `sensors.equipment_id` column is non-nullable).
Inputs: the configured bands, sensor id and type, filtered value, the
equipment's current status, the current time `now` (seconds) and the
existing alerts.  Output: the equipment status after the call and the
alert created, if any.  The status is set to `error` inside the
critical branch, before the 5-minute suppression query. -/
def check_thresholds (bands : SensorType → Option ThresholdBand)
    (sensorId : ℕ) (t : SensorType) (value : ℚ)
    (eqStatus : EquipmentStatus) (now : ℚ) (alerts : List AlertRec) :
    EquipmentStatus × Option AlertRec :=
  match bands t with
  | none => (eqStatus, none)
  | some th =>
    if th.critical ≤ value then
      let status' := EquipmentStatus.error
      if (alerts.filter (fun a =>
            a.sensor_id == sensorId && a.severity == AlertSeverity.critical &&
              decide (now - 5 * 60 ≤ a.timestamp))).isEmpty then
        (status', some ⟨sensorId, AlertSeverity.critical, now⟩)
      else
        (status', none)
    else if th.warning ≤ value then
      if (alerts.filter (fun a =>
            a.sensor_id == sensorId && a.severity == AlertSeverity.warning &&
              decide (now - 5 * 60 ≤ a.timestamp))).isEmpty then
        (eqStatus, some ⟨sensorId, AlertSeverity.warning, now⟩)
      else
        (eqStatus, none)
    else
      (eqStatus, none)

/-- The Threshold Evaluator contract as the specification words it:
band lookup gives CRITICAL when `value ≥ critical`, else WARNING when
`value ≥ warning`, else none. -/
def severityFor (bands : SensorType → Option ThresholdBand)
    (t : SensorType) (value : ℚ) : Option AlertSeverity :=
  match bands t with
  | none => none
  | some th =>
    if th.critical ≤ value then some AlertSeverity.critical
    else if th.warning ≤ value then some AlertSeverity.warning
    else none

/-- Whether a prior alert for the same sensor and the same severity lies
within the last 5 minutes (the suppression window, inclusive). -/
def suppressed (sensorId : ℕ) (sev : AlertSeverity) (now : ℚ)
    (alerts : List AlertRec) : Bool :=
  alerts.any (fun a =>
    a.sensor_id == sensorId && a.severity == sev && decide (now - 5 * 60 ≤ a.timestamp))

/-! ## Heuristic failure prediction
(`AnalysisSubsystem._heuristic_prediction`, `_get_risk_level`) -/

/-- Per-sensor-type entry of the feature dict built by
`AnalysisSubsystem._extract_features`; only the fields consumed by the
heuristic predictor are kept. -/
structure SensorFeat where
  current : ℚ
  trend : Trend
  deriving DecidableEq, Repr

/-- The feature dict built by `_extract_features`: equipment status plus
one entry per sensor type that had data in the last 24 hours
(a Python dict, modelled as an association list in iteration order). -/
structure FeatureVector where
  equipment_status : EquipmentStatus
  sensors : List (SensorType × SensorFeat)
  deriving DecidableEq, Repr

/-- `AnalysisSubsystem._heuristic_prediction`: rule-based accumulation,
transliterated from the source (`0.1` base, status bonus, per-sensor
threshold and trend bonuses, clamp at `0.99`). -/
def heuristic_prediction (bands : SensorType → Option ThresholdBand)
    (f : FeatureVector) : ℚ :=
  let p0 : ℚ := 1/10
  let p1 :=
    if f.equipment_status = EquipmentStatus.error then p0 + 2/5
    else if f.equipment_status = EquipmentStatus.offline then p0 + 1/5
    else p0
  let p2 := f.sensors.foldl (fun acc s =>
    match bands s.1 with
    | none => acc
    | some th =>
      let acc' :=
        if th.critical ≤ s.2.current then acc + 3/10
        else if th.warning ≤ s.2.current then acc + 3/20
        else acc
      if s.2.trend = Trend.increasing then acc' + 1/20 else acc') p1
  min p2 (99/100)

/-- `AnalysisSubsystem._get_risk_level`. -/
def get_risk_level (p : ℚ) : RiskLevel :=
  if 8/10 ≤ p then RiskLevel.critical
  else if 6/10 ≤ p then RiskLevel.high
  else if 3/10 ≤ p then RiskLevel.medium
  else RiskLevel.low

/-- Status term of the claimed closed form: `0.4` for `error`,
`0.2` for `offline`, `0` otherwise. -/
def statusBonus : EquipmentStatus → ℚ
  | .error => 2/5
  | .offline => 1/5
  | _ => 0

/-- Per-sensor term of the claimed closed form: for a configured band,
`0.3` at/above critical, else `0.15` at/above warning, plus `0.05`
for an increasing trend; `0` without a band. -/
def sensorContrib (bands : SensorType → Option ThresholdBand)
    (s : SensorType × SensorFeat) : ℚ :=
  match bands s.1 with
  | none => 0
  | some th =>
    (if th.critical ≤ s.2.current then 3/10
     else if th.warning ≤ s.2.current then 3/20
     else 0) +
    (if s.2.trend = Trend.increasing then 1/20 else 0)

/-- The closed form the specification claims for the heuristic. -/
def heuristicSpec (bands : SensorType → Option ThresholdBand)
    (f : FeatureVector) : ℚ :=
  min (99/100)
    (1/10 + statusBonus f.equipment_status + ((f.sensors.map (sensorContrib bands)).sum))

/-! ## Failure prediction (`AnalysisSubsystem.predict_failure`) -/

/-- The fields of the `FailurePrediction` schema that the claims are
about (the `factors` list of strings is omitted). -/
structure FailurePrediction where
  probability : ℚ
  confidence : ℚ
  time_window_hours : ℕ
  risk_level : RiskLevel
  deriving DecidableEq, Repr

/-- Errors surfaced by the prediction/anomaly request paths. -/
inductive ReqError
  | notFound
  deriving DecidableEq, Repr

/-- `AnalysisSubsystem.predict_failure`.  The equipment lookup is the
`db.query(...).first()` result (`none` when the id matches no row); the
classifier is the opaque `predict_probability` capability of the loaded
model, a function that either returns a probability or raises
(`Except.error ()`); `modelsLoaded` is the conjunction
`self._models_loaded and self._rf_model` (both set together by
`_initialize_models`).  On a missing equipment a `ValueError` is
raised; otherwise the classifier is tried when loaded, any exception
falls back to `_heuristic_prediction`, and the response carries
`round(probability, 2)`, a confidence of `0.75 if self._models_loaded
else 0.5`, the horizon, and the risk level of the unrounded
probability. -/
def predict_failure (bands : SensorType → Option ThresholdBand)
    (modelsLoaded : Bool) (classifier : FeatureVector → Except Unit ℚ)
    (equipment : Option EquipmentStatus) (features : FeatureVector)
    (horizonHours : ℕ) : Except ReqError FailurePrediction :=
  match equipment with
  | none => Except.error ReqError.notFound
  | some _ =>
    let probability :=
      if modelsLoaded then
        match classifier features with
        | Except.ok p => p
        | Except.error _ => heuristic_prediction bands features
      else heuristic_prediction bands features
    Except.ok
      { probability := round2 probability
        confidence := if modelsLoaded then 3/4 else 1/2
        time_window_hours := horizonHours
        risk_level := get_risk_level probability }

/-- Whether an `Except` result is a success. -/
def exceptOk {ε α : Type} : Except ε α → Bool
  | Except.ok _ => true
  | Except.error _ => false

/-- The `confidence` field of a prediction result, when there is one. -/
def confidenceOf (r : Except ReqError FailurePrediction) : Option ℚ :=
  r.toOption.map FailurePrediction.confidence

/-- The `probability` field of a prediction result, when there is one. -/
def probabilityOf (r : Except ReqError FailurePrediction) : Option ℚ :=
  r.toOption.map FailurePrediction.probability

/-! ## The noise filter across the ingest cycle (stream keys)

`filter_data` keys its `_recent_values` cache by `sensor_type.value`
alone; the per-reading processing below threads that dict through a
sequence of readings from possibly different sensors. -/

/-- One raw reading arriving in `_collection_cycle`: the sensor's id,
its type (the stream key used by `filter_data`) and the raw value. -/
structure Reading where
  sensorId : ℕ
  stype : SensorType
  value : ℚ
  deriving DecidableEq, Repr

/-- Apply `filter_data` to one reading against the keyed cache
(`self._recent_values`), returning the updated cache and the smoothed
value. -/
def filterStep (cache : SensorType → List ℚ) (r : Reading) :
    (SensorType → List ℚ) × ℚ :=
  let fr := filter_data (cache r.stype) r.value
  (Function.update cache r.stype fr.2, fr.1)

/-- Run a sequence of readings through the keyed noise filter, pairing
every reading with the smoothed value returned for it. -/
def runReadings (cache : SensorType → List ℚ) : List Reading → List (Reading × ℚ)
  | [] => []
  | r :: rs =>
    let s := filterStep cache r
    (r, s.2) :: runReadings s.1 rs

/-- Run a sequence of raw values through a single stream's filter. -/
def runStream (hist : List ℚ) : List ℚ → List ℚ
  | [] => []
  | v :: vs =>
    let fr := filter_data hist v
    fr.1 :: runStream fr.2 vs

/-! ## Anomaly detection (`AnalysisSubsystem.detect_anomalies`)

`numpy` statistics over floats are modelled over `ℝ` (the standard
deviation is a square root). -/

/-- `np.mean` of a list of values. -/
noncomputable def listMean (l : List ℝ) : ℝ := l.sum / (l.length : ℝ)

/-- `np.std` (population standard deviation): the square root of the
mean of squared deviations. -/
noncomputable def listStd (l : List ℝ) : ℝ :=
  Real.sqrt (((l.map (fun x => (x - listMean l) ^ 2)).sum) / (l.length : ℝ))

/-- The z-score computed by `detect_anomalies`:
`abs(current - mean) / std if std > 0 else 0`, where `current` is the
first (most recent) value of the window. -/
noncomputable def zScoreOf (values : List ℝ) : ℝ :=
  if 0 < listStd values then |values.headI - listMean values| / listStd values else 0

/-- The warning comparison `current_value >= warning_threshold`, where a
missing band makes the threshold `float("inf")` (so the comparison is
false). -/
def warnReached (bands : SensorType → Option ThresholdBand)
    (t : SensorType) (v : ℝ) : Prop :=
  match bands t with
  | none => False
  | some th => (th.warning : ℝ) ≤ v

/-- The anomaly dict built by `detect_anomalies` for one sensor
(the `message` string is omitted; `expected_range` is kept). -/
structure AnomalyReport where
  sensor_type : SensorType
  is_anomaly : Prop
  anomaly_score : ℝ
  current_value : ℝ
  expected_range : ℝ × ℝ

/-- The per-sensor body of `AnalysisSubsystem.detect_anomalies`: a
sensor whose recent-data window is empty is skipped (`continue`);
otherwise a report is built from the window (most recent value first,
as delivered by the `timestamp.desc()` query). -/
noncomputable def anomalyReportFor (bands : SensorType → Option ThresholdBand)
    (t : SensorType) (values : List ℝ) : Option AnomalyReport :=
  if values = [] then none
  else
    let mean := listMean values
    let std := listStd values
    let current := values.headI
    let z := zScoreOf values
    some
      { sensor_type := t
        is_anomaly := z > 2 ∨ warnReached bands t current
        anomaly_score := round2 z
        current_value := current
        expected_range := (round2 (mean - 2 * std), round2 (mean + 2 * std)) }

/-- `AnalysisSubsystem.detect_anomalies`: `none` equipment (id matches
no row) yields the empty list; otherwise one report per sensor with a
non-empty window. -/
noncomputable def detect_anomalies (bands : SensorType → Option ThresholdBand)
    (equipment : Option (List (SensorType × List ℝ))) : List AnomalyReport :=
  match equipment with
  | none => []
  | some sensors => sensors.filterMap (fun s => anomalyReportFor bands s.1 s.2)

/-- The `is_anomaly` field of an optional report (`False` when absent). -/
def reportAnomaly : Option AnomalyReport → Prop
  | none => False
  | some r => r.is_anomaly

/-- The `anomaly_score` field of an optional report. -/
noncomputable def reportScore : Option AnomalyReport → Option ℝ
  | none => none
  | some r => some r.anomaly_score

/-! ## Request boundary (`routers/predictions.py`) -/

/-- The `POST /{equipment_id}` handler `predict_failure` in
`routers/predictions.py`: the equipment is looked up first and a
missing row raises a 404 before the analysis subsystem is invoked. -/
def predictRoute (bands : SensorType → Option ThresholdBand)
    (modelsLoaded : Bool) (classifier : FeatureVector → Except Unit ℚ)
    (equipment : Option EquipmentStatus) (features : FeatureVector)
    (horizonHours : ℕ) : Except ReqError FailurePrediction :=
  match equipment with
  | none => Except.error ReqError.notFound
  | some st => predict_failure bands modelsLoaded classifier (some st) features horizonHours

/-- The `GET /{equipment_id}/anomalies` handler in
`routers/predictions.py`: a missing equipment raises a 404, otherwise
the anomaly list is computed and wrapped in an ordinary response. -/
noncomputable def anomaliesRoute (bands : SensorType → Option ThresholdBand)
    (equipment : Option (List (SensorType × List ℝ))) :
    Except ReqError (List AnomalyReport) :=
  match equipment with
  | none => Except.error ReqError.notFound
  | some sensors => Except.ok (detect_anomalies bands (some sensors))

/-! ## Helper lemmas -/

theorem round2_eq_of_lt_half {α : Type} [LinearOrderedField α] [FloorRing α]
    {x : α} {n : ℤ} (h1 : (n : α) ≤ 100 * x) (h2 : 100 * x < (n : α) + 1)
    (h3 : 100 * x - (n : α) < 1/2) : round2 x = (n : α) / 100 := by
  have hf : ⌊100 * x⌋ = n := Int.floor_eq_iff.mpr ⟨h1, h2⟩
  unfold round2 roundHalfEven
  rw [hf, if_pos h3]

theorem round2_eq_of_tie_even {α : Type} [LinearOrderedField α] [FloorRing α]
    {x : α} {n : ℤ} (heq : 100 * x = (n : α) + 1/2) (he : Even n) :
    round2 x = (n : α) / 100 := by
  have hf : ⌊100 * x⌋ = n := by
    rw [heq, Int.floor_eq_iff]
    constructor
    · linarith
    · linarith
  unfold round2 roundHalfEven
  rw [hf, heq]
  rw [if_neg (by linarith), if_neg (by linarith), if_pos he]

theorem lastN_length (n : ℕ) (l : List ℚ) : (lastN n l).length = min n l.length := by
  simp [lastN]
  omega

theorem pushValue_lastN (l : List ℚ) (v : ℚ) :
    pushValue (lastN noiseFilterWindow l) v = lastN noiseFilterWindow (l ++ [v]) := by
  unfold pushValue lastN noiseFilterWindow
  rcases le_or_lt l.length 4 with h | h
  · have h1 : l.length - 5 = 0 := by omega
    have h2 : l.length + 1 - 5 = 0 := by omega
    simp [h1, h2]
    omega
  · have h1 : (l.drop (l.length - 5)).length = 5 := by
      simp
      omega
    have hlen : (l.drop (l.length - 5) ++ [v]).length = 6 := by
      simp [h1]
    rw [if_pos (by rw [hlen]; omega)]
    rw [List.drop_append_eq_append_drop]
    rw [List.drop_append_eq_append_drop]
    rw [List.drop_drop]
    simp [h1]
    congr 1
    omega

theorem histAfter_eq_lastN (l : List ℚ) :
    histAfter l = lastN noiseFilterWindow l := by
  induction l using List.reverseRecOn with
  | nil => simp [histAfter, lastN]
  | append_singleton l v ih =>
      rw [histAfter, List.foldl_append]
      simp only [List.foldl_cons, List.foldl_nil]
      rw [← histAfter, ih, pushValue_lastN]

theorem mem_pushValue (s : List ℚ) (v : ℚ) : v ∈ pushValue s v := by
  show v ∈ if noiseFilterWindow < (s ++ [v]).length then (s ++ [v]).drop 1 else s ++ [v]
  unfold noiseFilterWindow
  split
  · next h =>
      rw [List.drop_append_eq_append_drop]
      have h1 : 1 - s.length = 0 := by
        simp at h
        omega
      rw [h1]
      simp
  · simp

theorem filter_data_snd (s : List ℚ) (v : ℚ) :
    (filter_data s v).2 = pushValue s v := rfl

theorem isEmpty_filter_bnot_any {α : Type} (p : α → Bool) (l : List α) :
    (l.filter p).isEmpty = !(l.any p) := by
  induction l with
  | nil => rfl
  | cons a l ih => cases h : p a <;> simp [List.filter_cons, h, ih]

theorem check_thresholds_alert_spec (bands : SensorType → Option ThresholdBand)
    (sensorId : ℕ) (t : SensorType) (value : ℚ)
    (eqStatus : EquipmentStatus) (now : ℚ) (alerts : List AlertRec) :
    (check_thresholds bands sensorId t value eqStatus now alerts).2 =
      match severityFor bands t value with
      | none => none
      | some sev =>
          if suppressed sensorId sev now alerts then none
          else some ⟨sensorId, sev, now⟩ := by
  unfold check_thresholds severityFor
  rcases bands t with _ | th
  · rfl
  · rw [isEmpty_filter_bnot_any, isEmpty_filter_bnot_any]
    have e1 : (alerts.any fun a =>
        a.sensor_id == sensorId && a.severity == AlertSeverity.critical &&
          decide (now - 5 * 60 ≤ a.timestamp)) =
        suppressed sensorId AlertSeverity.critical now alerts := rfl
    have e2 : (alerts.any fun a =>
        a.sensor_id == sensorId && a.severity == AlertSeverity.warning &&
          decide (now - 5 * 60 ≤ a.timestamp)) =
        suppressed sensorId AlertSeverity.warning now alerts := rfl
    rw [e1, e2]
    by_cases h1 : th.critical ≤ value
    · simp only [if_pos h1]
      cases hs : suppressed sensorId AlertSeverity.critical now alerts <;> simp [hs]
    · simp only [if_neg h1]
      by_cases h2 : th.warning ≤ value
      · simp only [if_pos h2]
        cases hs : suppressed sensorId AlertSeverity.warning now alerts <;> simp [hs]
      · simp [if_neg h2]

theorem heuristic_foldl_sum (bands : SensorType → Option ThresholdBand)
    (l : List (SensorType × SensorFeat)) (acc : ℚ) :
    l.foldl (fun acc s =>
      match bands s.1 with
      | none => acc
      | some th =>
        let acc' :=
          if th.critical ≤ s.2.current then acc + 3/10
          else if th.warning ≤ s.2.current then acc + 3/20
          else acc
        if s.2.trend = Trend.increasing then acc' + 1/20 else acc') acc
    = acc + (l.map (sensorContrib bands)).sum := by
  induction l generalizing acc with
  | nil => simp
  | cons s l ih =>
      rw [List.foldl_cons, ih, List.map_cons, List.sum_cons]
      have hstep : (match bands s.1 with
        | none => acc
        | some th =>
          let acc' :=
            if th.critical ≤ s.2.current then acc + 3/10
            else if th.warning ≤ s.2.current then acc + 3/20
            else acc
          if s.2.trend = Trend.increasing then acc' + 1/20 else acc')
          = acc + sensorContrib bands s := by
        unfold sensorContrib
        rcases bands s.1 with _ | th
        · simp
        · simp only
          split_ifs <;> ring
      rw [hstep]
      ring

theorem heuristic_closed_form (bands : SensorType → Option ThresholdBand)
    (f : FeatureVector) :
    heuristic_prediction bands f = heuristicSpec bands f := by
  unfold heuristic_prediction heuristicSpec
  simp only [heuristic_foldl_sum]
  rw [min_comm]
  congr 1
  unfold statusBonus
  cases f.equipment_status <;> simp [add_comm, add_assoc]

theorem runReadings_stream (t : SensorType) (l : List Reading)
    (cache : SensorType → List ℚ) :
    ((runReadings cache l).filter (fun p => p.1.stype == t)).map Prod.snd
      = runStream (cache t) ((l.filter (fun r => r.stype == t)).map Reading.value) := by
  induction l generalizing cache with
  | nil => rfl
  | cons r rs ih =>
      by_cases ht : r.stype = t
      · subst ht
        simp only [runReadings, List.filter_cons, beq_self_eq_true, if_pos,
          List.map_cons, ih, filterStep, runStream]
        simp [Function.update_same]
      · have hbeq : (r.stype == t) = false := by
          simp [ht]
        simp only [runReadings, List.filter_cons, hbeq, filterStep,
          Bool.false_eq_true, if_false]
        rw [ih]
        congr 1
        exact Function.update_noteq (Ne.symm ht) _ _

theorem check_90_fresh :
    check_thresholds SENSOR_THRESHOLDS 1 .temperature 90 .online 0 []
      = (.error, some ⟨1, .critical, 0⟩) := by
  norm_num [check_thresholds, SENSOR_THRESHOLDS]

theorem check_72_fresh :
    check_thresholds SENSOR_THRESHOLDS 1 .temperature 72 .online 0 []
      = (.online, some ⟨1, .warning, 0⟩) := by
  norm_num [check_thresholds, SENSOR_THRESHOLDS]

theorem check_50_fresh :
    check_thresholds SENSOR_THRESHOLDS 1 .temperature 50 .online 0 []
      = (.online, none) := by
  norm_num [check_thresholds, SENSOR_THRESHOLDS]

theorem check_90_suppressed :
    check_thresholds SENSOR_THRESHOLDS 1 .temperature 90 .online 60
      [⟨1, .critical, 0⟩] = (.error, none) := by
  norm_num [check_thresholds, SENSOR_THRESHOLDS, List.filter_cons,
    Bool.and_eq_true, decide_eq_true_eq]

theorem check_90_after_window :
    check_thresholds SENSOR_THRESHOLDS 1 .temperature 90 .online 301
      [⟨1, .critical, 0⟩] = (.error, some ⟨1, .critical, 301⟩) := by
  norm_num [check_thresholds, SENSOR_THRESHOLDS, List.filter_cons,
    Bool.and_eq_true, decide_eq_true_eq]

theorem check_72_other_severity :
    check_thresholds SENSOR_THRESHOLDS 1 .temperature 72 .online 60
      [⟨1, .critical, 0⟩] = (.online, some ⟨1, .warning, 60⟩) := by
  norm_num [check_thresholds, SENSOR_THRESHOLDS, List.filter_cons,
    Bool.and_eq_true, decide_eq_true_eq]
  exact fun h => absurd h (by decide)

/-- C1: for every feature vector the heuristic failure probability is
`min(0.99, 0.1 + status bonus + per-sensor band/trend contributions)`;
status `error` with no sensor data gives exactly `0.5` (medium), online
with one sensor at critical gives `0.4` (medium), online with all
sensors nominal gives `0.1` (low); the tier mapping has its boundaries
at `0.8`, `0.6` and `0.3`. -/
theorem C1_heuristic_probability :
    (∀ bands f, heuristic_prediction bands f = heuristicSpec bands f)
    ∧ heuristic_prediction SENSOR_THRESHOLDS ⟨.error, []⟩ = 1/2
    ∧ get_risk_level (1/2) = .medium
    ∧ heuristic_prediction SENSOR_THRESHOLDS
        ⟨.online, [(.temperature, ⟨85, .stable⟩)]⟩ = 2/5
    ∧ get_risk_level (2/5) = .medium
    ∧ heuristic_prediction SENSOR_THRESHOLDS
        ⟨.online, [(.temperature, ⟨45, .stable⟩), (.vibration, ⟨5/2, .stable⟩),
                   (.pressure, ⟨200, .stable⟩), (.current, ⟨22, .stable⟩)]⟩ = 1/10
    ∧ get_risk_level (1/10) = .low
    ∧ get_risk_level (8/10) = .critical ∧ get_risk_level (79/100) = .high
    ∧ get_risk_level (6/10) = .high ∧ get_risk_level (59/100) = .medium
    ∧ get_risk_level (3/10) = .medium ∧ get_risk_level (29/100) = .low := by
  refine ⟨heuristic_closed_form, ?_, ?_, ?_, ?_, ?_, ?_, ?_, ?_, ?_, ?_, ?_, ?_⟩
  · norm_num [heuristic_prediction, min_def]
  · norm_num [get_risk_level]
  · simp only [heuristic_prediction, SENSOR_THRESHOLDS, List.foldl_cons, List.foldl_nil]
    simp only [reduceCtorEq, if_false, reduceIte]
    norm_num [min_def]
  · norm_num [get_risk_level]
  · simp only [heuristic_prediction, SENSOR_THRESHOLDS, List.foldl_cons, List.foldl_nil]
    simp only [reduceCtorEq, if_false, reduceIte]
    norm_num [min_def]
  · norm_num [get_risk_level]
  · norm_num [get_risk_level]
  · norm_num [get_risk_level]
  · norm_num [get_risk_level]
  · norm_num [get_risk_level]
  · norm_num [get_risk_level]
  · norm_num [get_risk_level]

/-- C2, counterexample: with the models loaded and a classifier whose
call raises, the heuristic fallback supplies the probability, yet the
returned confidence is `0.75`, not the claimed `0.5`: the code derives
the confidence from `self._models_loaded` alone. -/
theorem C2_counterexample :
    predict_failure SENSOR_THRESHOLDS true (fun _ => Except.error ())
        (some .online) ⟨.online, []⟩ 48
      = Except.ok ⟨1/10, 3/4, 48, .low⟩
    ∧ heuristic_prediction SENSOR_THRESHOLDS ⟨.online, []⟩ = 1/10
    ∧ (3/4 : ℚ) ≠ 1/2 := by
  have hh : heuristic_prediction SENSOR_THRESHOLDS ⟨.online, []⟩ = 1/10 := by
    simp only [heuristic_prediction, List.foldl_nil]
    simp only [reduceCtorEq, if_false, reduceIte]
    norm_num [min_def]
  have hr : round2 ((1:ℚ)/10) = 1/10 := by
    rw [round2_eq_of_lt_half (n := 10) (by norm_num) (by norm_num) (by norm_num)]
    norm_num
  refine ⟨?_, hh, by norm_num⟩
  simp only [predict_failure, hh, hr, if_true]
  norm_num [get_risk_level]

/-- C2, amended: the confidence is `0.75` whenever the models were
loaded — including when the classifier call failed and the heuristic
fallback produced the probability — and `0.5` exactly when no
classifier was loaded. -/
theorem C2_amended_confidence (bands : SensorType → Option ThresholdBand)
    (modelsLoaded : Bool) (classifier : FeatureVector → Except Unit ℚ)
    (st : EquipmentStatus) (f : FeatureVector) (hz : ℕ) :
    confidenceOf (predict_failure bands modelsLoaded classifier (some st) f hz)
      = some (if modelsLoaded then 3/4 else 1/2) := by
  cases modelsLoaded <;> simp [predict_failure, confidenceOf, Except.toOption]

/-- C3, counterexample: the first call on an empty history does not
return the single input value — it returns the value rounded to two
decimal places, so the input `1/8 = 0.125` comes back as `0.12`. -/
theorem C3_counterexample :
    (filter_data [] (1/8)).1 = 3/25 ∧ ((3:ℚ)/25) ≠ 1/8 := by
  constructor
  · show round2 ((pushValue [] (1/8)).sum / ((pushValue [] (1/8)).length : ℚ)) = 3/25
    have hp : pushValue [] (1/8 : ℚ) = [1/8] := by
      simp [pushValue, noiseFilterWindow]
    rw [hp]
    simp only [List.sum_cons, List.sum_nil, List.length_singleton, Nat.cast_one, add_zero]
    rw [div_one]
    rw [round2_eq_of_tie_even (n := 12) (by norm_num) (by decide)]
    norm_num
  · norm_num

/-- C3, amended: the output of the n-th call on a stream equals the
arithmetic mean of the most recent `min(5, n)` raw values rounded to
2 decimal places, the per-key history is a strict FIFO of capacity 5,
and the first call on an empty history returns the single input value
rounded to 2 decimal places. -/
theorem C3_trailing_window (pre : List ℚ) (v : ℚ) :
    (filter_data (histAfter pre) v).1
        = round2 ((lastN 5 (pre ++ [v])).sum / ((lastN 5 (pre ++ [v])).length : ℚ))
    ∧ (filter_data (histAfter pre) v).2 = lastN 5 (pre ++ [v])
    ∧ (lastN 5 (pre ++ [v])).length = min 5 (pre.length + 1)
    ∧ (filter_data [] v).1 = round2 v := by
  have hstate : pushValue (histAfter pre) v = lastN 5 (pre ++ [v]) := by
    rw [histAfter_eq_lastN]
    exact pushValue_lastN pre v
  refine ⟨?_, hstate, ?_, ?_⟩
  · show round2 ((pushValue (histAfter pre) v).sum
        / ((pushValue (histAfter pre) v).length : ℚ)) = _
    rw [hstate]
  · rw [lastN_length]
    simp
  · show round2 ((pushValue [] v).sum / ((pushValue [] v).length : ℚ)) = round2 v
    have hp : pushValue [] v = [v] := by
      simp [pushValue, noiseFilterWindow]
    rw [hp]
    simp

/-- C4: threshold evaluation of a filtered value yields CRITICAL at or
above the critical level, else WARNING at or above the warning level,
else no alert (and none without a configured band); a new alert is
suppressed exactly when a prior alert for the same sensor with the same
severity lies within the last 5 minutes; with warning 70/critical 85,
90 → CRITICAL, 72 → WARNING, 50 → none, a repeated CRITICAL within 5
minutes is suppressed, fires again after the window, and a different
severity within the window still fires. -/
theorem C4_threshold_evaluation :
    (∀ bands sensorId t value st now alerts,
        (check_thresholds bands sensorId t value st now alerts).2 =
          match severityFor bands t value with
          | none => none
          | some sev =>
              if suppressed sensorId sev now alerts then none
              else some ⟨sensorId, sev, now⟩)
    ∧ (∀ sensorId t value st now alerts,
        check_thresholds (fun _ => none) sensorId t value st now alerts = (st, none))
    ∧ (check_thresholds SENSOR_THRESHOLDS 1 .temperature 90 .online 0 []).2
        = some ⟨1, .critical, 0⟩
    ∧ (check_thresholds SENSOR_THRESHOLDS 1 .temperature 72 .online 0 []).2
        = some ⟨1, .warning, 0⟩
    ∧ (check_thresholds SENSOR_THRESHOLDS 1 .temperature 50 .online 0 []).2 = none
    ∧ (check_thresholds SENSOR_THRESHOLDS 1 .temperature 90 .online 60
        [⟨1, .critical, 0⟩]).2 = none
    ∧ (check_thresholds SENSOR_THRESHOLDS 1 .temperature 90 .online 301
        [⟨1, .critical, 0⟩]).2 = some ⟨1, .critical, 301⟩
    ∧ (check_thresholds SENSOR_THRESHOLDS 1 .temperature 72 .online 60
        [⟨1, .critical, 0⟩]).2 = some ⟨1, .warning, 60⟩ := by
  refine ⟨check_thresholds_alert_spec, fun _ _ _ _ _ _ => rfl, ?_, ?_, ?_, ?_, ?_, ?_⟩
  · rw [check_90_fresh]
  · rw [check_72_fresh]
  · rw [check_50_fresh]
  · rw [check_90_suppressed]
  · rw [check_90_after_window]
  · rw [check_72_other_severity]

theorem cex_window_mean :
    listMean (List.replicate 9 (0:ℝ) ++ List.replicate 16 1) = 16/25 := by
  unfold listMean
  simp [List.sum_append, List.sum_replicate, List.length_append]
  norm_num

theorem cex_window_std :
    listStd (List.replicate 9 (0:ℝ) ++ List.replicate 16 1) = 12/25 := by
  unfold listStd
  simp only [cex_window_mean]
  simp [List.map_append, List.map_replicate, List.sum_append, List.sum_replicate,
    List.length_append, List.length_replicate]
  norm_num
  rw [show (144:ℝ) = 12^2 by norm_num, show (25:ℝ) = 5^2 by norm_num,
    Real.sqrt_sq (by norm_num : (0:ℝ) ≤ 12), Real.sqrt_sq (by norm_num : (0:ℝ) ≤ 5)]
  norm_num

theorem cex_window_head :
    (List.replicate 9 (0:ℝ) ++ List.replicate 16 1).headI = 0 := by
  simp [List.replicate_succ]

theorem cex_window_z :
    zScoreOf (List.replicate 9 (0:ℝ) ++ List.replicate 16 1) = 4/3 := by
  unfold zScoreOf
  rw [cex_window_std, cex_window_mean, cex_window_head]
  rw [if_pos (by norm_num)]
  rw [show (0 - 16/25 : ℝ) = -(16/25) by ring, abs_neg,
    abs_of_nonneg (by norm_num : (0:ℝ) ≤ 16/25)]
  norm_num

/-- C5, counterexample: the report's `anomaly_score` is `round(z, 2)`,
not `z` itself — for the 25-value window of nine `0`s and sixteen `1`s
the z-score of the current value `0` is `4/3`, but the reported score
is `1.33`. -/
theorem C5_counterexample :
    reportScore (anomalyReportFor SENSOR_THRESHOLDS .temperature
        (List.replicate 9 (0:ℝ) ++ List.replicate 16 1)) = some (133/100)
    ∧ zScoreOf (List.replicate 9 (0:ℝ) ++ List.replicate 16 1) = 4/3
    ∧ ((133:ℝ)/100) ≠ 4/3 := by
  have hne : (List.replicate 9 (0:ℝ) ++ List.replicate 16 1) ≠ [] := by simp
  have hround : round2 ((4:ℝ)/3) = 133/100 := by
    rw [round2_eq_of_lt_half (n := 133) (by norm_num) (by norm_num) (by norm_num)]
    norm_num
  refine ⟨?_, cex_window_z, by norm_num⟩
  simp only [anomalyReportFor, if_neg hne, reportScore]
  rw [cex_window_z, hround]

/-- C5, amended: for every sensor with a non-empty window the report is
emitted with `anomaly_score = round(z, 2)` where
`z = |current − mean| / std` (`0` whenever `std = 0`), and
`is_anomaly = (z > 2 OR current ≥ warning threshold)`; hence for every
`std = 0` window `is_anomaly` depends solely on the warning-threshold
comparison; a sensor with empty history is skipped rather than raising
an error. -/
theorem C5_anomaly_report (bands : SensorType → Option ThresholdBand)
    (t : SensorType) (values : List ℝ) (hne : values ≠ []) :
    reportScore (anomalyReportFor bands t values) = some (round2 (zScoreOf values))
    ∧ (reportAnomaly (anomalyReportFor bands t values) ↔
        2 < zScoreOf values ∨ warnReached bands t values.headI)
    ∧ (listStd values = 0 → zScoreOf values = 0)
    ∧ (listStd values = 0 →
        (reportAnomaly (anomalyReportFor bands t values) ↔
          warnReached bands t values.headI))
    ∧ anomalyReportFor bands t [] = none := by
  have hz0 : listStd values = 0 → zScoreOf values = 0 := by
    intro h
    unfold zScoreOf
    rw [h]
    simp
  refine ⟨?_, ?_, hz0, ?_, ?_⟩
  · simp only [anomalyReportFor, if_neg hne, reportScore]
  · simp only [anomalyReportFor, if_neg hne, reportAnomaly]
  · intro h
    simp only [anomalyReportFor, if_neg hne, reportAnomaly]
    rw [hz0 h]
    constructor
    · rintro (hlt | hw)
      · norm_num at hlt
      · exact hw
    · exact Or.inr
  · simp [anomalyReportFor]

/-- C5, witness: the theorem applied to the concrete two-value window
`[50, 50]` (std 0, z-score 0) and to the empty window. -/
theorem C5_witness :
    zScoreOf [(50:ℝ), 50] = 0
    ∧ anomalyReportFor SENSOR_THRESHOLDS .temperature ([] : List ℝ) = none := by
  have h := C5_anomaly_report SENSOR_THRESHOLDS .temperature [(50:ℝ), 50] (by simp)
  have hstd : listStd [(50:ℝ), 50] = 0 := by
    unfold listStd listMean
    norm_num
  exact ⟨h.2.2.1 hstd, h.2.2.2.2⟩

/-- C6, counterexample: a raw temperature reading of `300` (outside the
physical range `(-50, 200)`) is *not* rejected before reaching the
Noise Filter — on an empty history it enters the per-stream smoothing
history, because the cycle filters first and validates the *filtered*
value afterwards. -/
theorem C6_counterexample :
    processSensorReading [] .temperature 300 = ([300], none, false)
    ∧ (300 : ℚ) ∈ (processSensorReading [] .temperature 300).1
    ∧ validate_data .temperature 300 = false := by
  have h300 : round2 ((300:ℚ)) = 300 := by
    rw [round2_eq_of_lt_half (n := 30000) (by norm_num) (by norm_num) (by norm_num)]
    norm_num
  have hv : validate_data .temperature (300:ℚ) = false := by
    simp [validate_data, sensorRanges]
    norm_num
  have hfd : filter_data [] (300:ℚ) = (300, [300]) := by
    have hp : pushValue [] (300:ℚ) = [300] := by
      simp [pushValue, noiseFilterWindow]
    unfold filter_data
    rw [hp]
    simp only [List.sum_cons, List.sum_nil, List.length_singleton, Nat.cast_one, add_zero]
    rw [div_one, h300]
  have h1 : processSensorReading [] .temperature 300 = ([300], none, false) := by
    unfold processSensorReading
    rw [hfd]
    simp [hv]
  refine ⟨h1, ?_, hv⟩
  rw [h1]
  simp

/-- C6, amended: validation happens *after* the Noise Filter, on the
smoothed value: every raw value (in range or not) enters the per-stream
smoothing history, and a reading whose *filtered* value is out of the
physical range is neither stored nor threshold-checked. -/
theorem C6_validation_after_filter (hist : List ℚ) (t : SensorType) (raw : ℚ) :
    (processSensorReading hist t raw).1 = pushValue hist raw
    ∧ raw ∈ (processSensorReading hist t raw).1
    ∧ (processSensorReading hist t raw).2.1
        = (if validate_data t (filter_data hist raw).1
           then some (filter_data hist raw).1 else none)
    ∧ (processSensorReading hist t raw).2.2 = validate_data t (filter_data hist raw).1 := by
  unfold processSensorReading
  cases hvd : validate_data t (filter_data hist raw).1 <;>
    simp [hvd, filter_data_snd, mem_pushValue]

/-- C7: for every prediction request on existing equipment a prediction
is returned — when no classifier is loaded, or when the classifier call
raises, the probability comes from the heuristic predictor and no model
error propagates to the caller. -/
theorem C7_prediction_always_returned (bands : SensorType → Option ThresholdBand)
    (modelsLoaded : Bool) (classifier : FeatureVector → Except Unit ℚ)
    (st : EquipmentStatus) (f : FeatureVector) (hz : ℕ) :
    exceptOk (predict_failure bands modelsLoaded classifier (some st) f hz) = true
    ∧ (modelsLoaded = false →
        probabilityOf (predict_failure bands modelsLoaded classifier (some st) f hz)
          = some (round2 (heuristic_prediction bands f)))
    ∧ (classifier f = Except.error () →
        probabilityOf (predict_failure bands modelsLoaded classifier (some st) f hz)
          = some (round2 (heuristic_prediction bands f))) := by
  refine ⟨rfl, ?_, ?_⟩
  · rintro rfl
    simp [predict_failure, probabilityOf, Except.toOption]
  · intro hcl
    cases modelsLoaded
    · simp [predict_failure, probabilityOf, Except.toOption]
    · simp [predict_failure, probabilityOf, Except.toOption, hcl]

/-- C7, witness: the theorem at a concrete request — models loaded, the
classifier raising, equipment present with status `error` and no sensor
features: the call succeeds and returns the heuristic value `0.5`. -/
theorem C7_witness :
    exceptOk (predict_failure SENSOR_THRESHOLDS true (fun _ => Except.error ())
        (some .online) ⟨.error, []⟩ 48) = true
    ∧ probabilityOf (predict_failure SENSOR_THRESHOLDS true (fun _ => Except.error ())
        (some .online) ⟨.error, []⟩ 48) = some (1/2) := by
  have h := C7_prediction_always_returned SENSOR_THRESHOLDS true
    (fun _ => Except.error ()) .online ⟨.error, []⟩ 48
  refine ⟨h.1, ?_⟩
  rw [h.2.2 rfl]
  have hh : heuristic_prediction SENSOR_THRESHOLDS ⟨.error, []⟩ = 1/2 := by
    norm_num [heuristic_prediction, min_def]
  rw [hh]
  rw [round2_eq_of_lt_half (n := 50) (by norm_num) (by norm_num) (by norm_num)]
  norm_num

/-- C8: a prediction or anomaly request naming equipment that does not
exist surfaces a `not found` error to the caller, and requests on
existing equipment never surface an error — `not found` is the only
core-triggered error at the boundary. -/
theorem C8_not_found_condition :
    (∀ bands ml cl f hz,
        predictRoute bands ml cl none f hz = Except.error ReqError.notFound)
    ∧ (∀ bands ml cl st f hz,
        exceptOk (predictRoute bands ml cl (some st) f hz) = true)
    ∧ (∀ bands, anomaliesRoute bands none = Except.error ReqError.notFound)
    ∧ (∀ bands sensors, exceptOk (anomaliesRoute bands (some sensors)) = true) := by
  exact ⟨fun _ _ _ _ _ => rfl, fun _ _ _ _ _ _ => rfl, fun _ => rfl, fun _ _ => rfl⟩

/-- C9, counterexample: the noise filter's stream key is the sensor
*type* alone, so a reading from an independent sensor (id 2) of the same
type changes the smoothed value returned for sensor 1: alone, sensor
1's reading `10` comes back as `10`; after sensor 2 submitted `100`
under the same key, sensor 1's `10` comes back as `55`. -/
theorem C9_counterexample :
    runReadings (fun _ => []) [⟨1, .temperature, 10⟩]
      = [(⟨1, .temperature, 10⟩, 10)]
    ∧ runReadings (fun _ => []) [⟨2, .temperature, 100⟩, ⟨1, .temperature, 10⟩]
      = [(⟨2, .temperature, 100⟩, 100), (⟨1, .temperature, 10⟩, 55)]
    ∧ (10 : ℚ) ≠ 55 := by
  have h10 : round2 ((10:ℚ)) = 10 := by
    rw [round2_eq_of_lt_half (n := 1000) (by norm_num) (by norm_num) (by norm_num)]
    norm_num
  have h100 : round2 ((100:ℚ)) = 100 := by
    rw [round2_eq_of_lt_half (n := 10000) (by norm_num) (by norm_num) (by norm_num)]
    norm_num
  have h55 : round2 ((55:ℚ)) = 55 := by
    rw [round2_eq_of_lt_half (n := 5500) (by norm_num) (by norm_num) (by norm_num)]
    norm_num
  refine ⟨?_, ?_, by norm_num⟩
  · simp only [runReadings, filterStep, filter_data, pushValue, noiseFilterWindow]
    norm_num [h10]
  · simp only [runReadings, filterStep, filter_data, pushValue, noiseFilterWindow,
      Function.update_same]
    norm_num [h10, h100, h55]

/-- C9, amended: the smoothed outputs for the readings of one stream key
(one sensor *type*) are a function of only the values previously
submitted under that same key, whichever sensor id submitted them;
readings under other keys never affect them. -/
theorem C9_stream_key_dependence (t : SensorType) (l : List Reading)
    (cache : SensorType → List ℚ) :
    ((runReadings cache l).filter (fun p => p.1.stype == t)).map Prod.snd
      = runStream (cache t) ((l.filter (fun r => r.stype == t)).map Reading.value) :=
  runReadings_stream t l cache

/-- C10: whenever the filtered value reaches the critical level of a
configured band, the threshold check sets the equipment status to
`error` — also when creation of the alert record is suppressed by the
5-minute same-severity deduplication (shown by the concrete suppressed
case, which still flips the status). -/
theorem C10_error_status_on_critical :
    (∀ bands sensorId t value st now alerts,
        (check_thresholds bands sensorId t value st now alerts).1 =
          match bands t with
          | none => st
          | some th => if th.critical ≤ value then EquipmentStatus.error else st)
    ∧ check_thresholds SENSOR_THRESHOLDS 1 .temperature 90 .online 60
        [⟨1, .critical, 0⟩] = (.error, none) := by
  refine ⟨?_, check_90_suppressed⟩
  intro bands sensorId t value st now alerts
  unfold check_thresholds
  rcases bands t with _ | th
  · rfl
  · by_cases h1 : th.critical ≤ value
    · simp only [if_pos h1]
      split <;> rfl
    · simp only [if_neg h1]
      by_cases h2 : th.warning ≤ value
      · simp only [if_pos h2]
        split <;> rfl
      · simp only [if_neg h2]
